import Mathlib

/-!
Verification of the mox store archival layer: a shallow embedding of the
NATS archival client, the on-disk spool, the retry loop and the store
lifecycle, translated from the Go sources (package store).

Sources embedded here:
- the spool-backed client variant with StoreMessageWithQueue, the package
  init that creates the pending directory and starts the retry goroutine,
  and processPendingNATSLoop;
- the store lifecycle Init and Close, with the login-cleanup worker
  goroutine and its recover guard.

External effects (NATS Put outcomes, file open and copy outcomes, account
removal outcomes, scheduling of select cases) are modelled as explicit
oracle parameters; everything decided by the Go control flow itself is a
computable Lean function of those oracles.
-/

/-- Errors a store operation can return. The constructors mirror the
distinct wrapped error messages in the Go source: the seek error inside
StoreMessage, the wrapped Put error from StoreMessage, and the seek,
exclusive-create and copy errors of the spool enqueue inside
StoreMessageWithQueue. -/
inductive GoErr where
  | seekMsgErr
  | putFail (m : String)
  | seekQueueErr
  | createErr
  | copyErr
deriving DecidableEq

/-- Configuration block for NATS, mirroring config.NATS as consumed by
newNATSClient: URL, BucketName, Username, Password, Token,
CredentialsFile, ConnectTimeout, RequestTimeout, DeleteAfterStore. -/
structure NATSConfig where
  url : String
  bucketName : String
  username : String
  password : String
  token : String
  credentialsFile : String
  connectTimeout : Nat
  requestTimeout : Nat
  deleteAfterStore : Bool
deriving DecidableEq

/-- Observable state of a constructed NATSClient: its configuration,
whether the conn field is a nil pointer, and whether the underlying
connection currently reports connected. A nil client pointer is modelled
as the none case of Option ClientState at each call site. -/
structure ClientState where
  config : NATSConfig
  connNil : Bool
  connConnected : Bool
deriving DecidableEq

/-- Config method: nil receiver returns nil, otherwise the stored
configuration. -/
def clientConfig (nc : Option ClientState) : Option NATSConfig :=
  match nc with
  | none => none
  | some c => some c.config

/-- IsConnected method: false for a nil receiver or nil conn, otherwise
the connection status. -/
def isConnected (nc : Option ClientState) : Bool :=
  match nc with
  | none => false
  | some c => if c.connNil = true then false else c.connConnected

/-- Close method: returns nil on every path, for a nil receiver, a nil
conn, and after closing a live connection. -/
def closeClient (nc : Option ClientState) : Option GoErr :=
  match nc with
  | none => none
  | some _ => none

/-- One authentication option appended to the NATS connect options. -/
inductive AuthOpt where
  | credsFile (path : String)
  | token (t : String)
  | userInfo (u p : String)
deriving DecidableEq

/-- Authentication options appended by newNATSClient: the credentials
file when set, else the token when set, else username and password when
the username is set, else nothing. -/
def authOpts (cfg : NATSConfig) : List AuthOpt :=
  if cfg.credentialsFile ≠ "" then [AuthOpt.credsFile cfg.credentialsFile]
  else if cfg.token ≠ "" then [AuthOpt.token cfg.token]
  else if cfg.username ≠ "" then [AuthOpt.userInfo cfg.username cfg.password]
  else []

/-- StoreMessage: nil receiver returns nil; otherwise seek the message
file to its start (seekMsgOk oracle; failure returns the seek error),
then Put the object (putRes oracle: none is success, some m is the Put
error text, returned wrapped as putFail m). -/
def storeMessage (nc : Option ClientState) (seekMsgOk : Bool) (putRes : Option String) :
    Option GoErr :=
  match nc with
  | none => none
  | some _ =>
    if seekMsgOk = false then some GoErr.seekMsgErr
    else
      match putRes with
      | some m => some (GoErr.putFail m)
      | none => none

/-- Spool entry filename generated by StoreMessageWithQueue:
msg-<messageID>-<unixNanos>-<salt>, via the format string used with
Sprintf in the source. -/
def queueEntryName (messageID : Int) (nanos : Nat) (salt : Nat) : String :=
  "msg-" ++ toString messageID ++ "-" ++ toString nanos ++ "-" ++ toString salt

/-- StoreMessageWithQueue. The spool is an association list from entry
filename to file contents. Control flow from the source: nil receiver
returns nil; a successful direct StoreMessage returns nil and leaves the
spool untouched; on direct-store failure the message file is seeked
(seekQueueOk oracle), the entry file is opened with
O_CREATE, O_WRONLY and O_EXCL (an existing name therefore fails the
create and the create error is returned with the spool untouched), the
contents are copied (copyFail oracle: some j means the copy failed after
j bytes, returning the copy error and leaving the truncated entry), and
on full success the original direct-store error is returned. -/
def storeMessageWithQueue (nc : Option ClientState) (seekMsgOk : Bool) (putRes : Option String)
    (messageID : Int) (nanos salt : Nat) (seekQueueOk : Bool) (copyFail : Option Nat)
    (data : List Nat) (spool : List (String × List Nat)) :
    Option GoErr × List (String × List Nat) :=
  match nc with
  | none => (none, spool)
  | some c =>
    match storeMessage (some c) seekMsgOk putRes with
    | none => (none, spool)
    | some e =>
      if seekQueueOk = false then (some GoErr.seekQueueErr, spool)
      else
        if (spool.lookup (queueEntryName messageID nanos salt)).isSome = true then
          (some GoErr.createErr, spool)
        else
          match copyFail with
          | some j =>
            (some GoErr.copyErr, spool ++ [(queueEntryName messageID nanos salt, data.take j)])
          | none =>
            (some e, spool ++ [(queueEntryName messageID nanos salt, data)])

/-- Observable outcome of StoreMessageAsync. snapshot is the byte copy
taken by ReadFile before the function returns; handedToQueue is the byte
sequence the detached goroutine writes to its temp file and passes to
StoreMessageWithQueue; callerObserved is what the caller receives, which
is nothing since the function has no return value. -/
structure AsyncResult where
  snapshot : Option (List Nat)
  handedToQueue : Option (List Nat)
  callerObserved : Option GoErr
deriving DecidableEq

/-- StoreMessageAsync: nil receiver returns immediately; the message file
is seeked and fully read into data before the function returns
(contentsAtCall); the detached goroutine creates a temp file (tmpOk
oracle), writes data into it (writeOk oracle) and only then calls
StoreMessageWithQueue on the temp file. laterContents stands for
whatever the caller's file holds after the call returns; the goroutine
only ever uses the data copy, so laterContents influences nothing. -/
def storeMessageAsync (nc : Option ClientState) (seekOk : Bool) (contentsAtCall : List Nat)
    (readOk : Bool) (tmpOk writeOk : Bool) (_laterContents : List Nat) : AsyncResult :=
  match nc with
  | none => ⟨none, none, none⟩
  | some _ =>
    if seekOk = false then ⟨none, none, none⟩
    else if readOk = false then ⟨none, none, none⟩
    else
      { snapshot := some contentsAtCall,
        handedToQueue :=
          if tmpOk = false then none
          else if writeOk = false then none
          else some contentsAtCall,
        callerObserved := none }

/-- Longest prefix of decimal digits of a character list, with the rest. -/
def takeDigits : List Char → List Char × List Char
  | [] => ([], [])
  | c :: cs =>
    if c.isDigit then
      (c :: (takeDigits cs).1, (takeDigits cs).2)
    else ([], c :: cs)

/-- Numeric value of a list of decimal digit characters. -/
def digitsVal (ds : List Char) : Nat :=
  ds.foldl (fun a c => a * 10 + (c.toNat - 48)) 0

/-- Whether a scanned integer fits in int64, as Sscanf requires for a
%d verb bound to an int64 variable: magnitude up to 2^63 for a negative
value and 2^63 - 1 otherwise. -/
def fitsInt64 (sign : Bool) (v : Nat) : Bool :=
  if sign = true then Nat.ble v 9223372036854775808 else Nat.ble v 9223372036854775807

/-- Scan of a digit run for the %d verb once an optional sign has been
consumed: at least one digit must be present, the value must fit in
int64, and the literal dash of the format must follow the digits;
anything after that dash is ignored. -/
def parseMsgTailDigits (sign : Bool) (rest : List Char) : Option Int :=
  if (takeDigits rest).1.isEmpty then none
  else if fitsInt64 sign (digitsVal (takeDigits rest).1) = false then none
  else
    match (takeDigits rest).2 with
    | '-' :: _ =>
      some (if sign then -(digitsVal (takeDigits rest).1 : Int)
            else (digitsVal (takeDigits rest).1 : Int))
    | _ => none

/-- Scan of the characters after the literal msg- against the rest of
the Sscanf format msg-%d-: skip leading whitespace, then an optional
sign, then the digit run. -/
def parseMsgTail (cs : List Char) : Option Int :=
  match (cs.dropWhile Char.isWhitespace) with
  | '-' :: rest => parseMsgTailDigits true rest
  | '+' :: rest => parseMsgTailDigits false rest
  | rest => parseMsgTailDigits false rest

/-- Parse of a spool filename by Sscanf with format msg-%d-: the name
must start with the literal msg-, then an integer and a dash. Returns
the message identifier, or none when the scan errors and the retry loop
skips the entry as malformed. -/
def parseMsgName (s : String) : Option Int :=
  match s.toList with
  | 'm' :: 's' :: 'g' :: '-' :: rest => parseMsgTail rest
  | _ => none

/-- One directory entry as seen by ReadDir: a name and whether it is a
subdirectory. -/
structure DirEntry where
  name : String
  isDir : Bool
deriving DecidableEq

/-- A spool entry is well formed when it is not a directory and its name
parses under the msg-%d- scan. -/
def entryWellFormed (e : DirEntry) : Bool :=
  !e.isDir && (parseMsgName e.name).isSome

/-- Names of the well-formed entries of a listing, in listing order. -/
def wellFormedNames (es : List DirEntry) : List String :=
  (es.filter entryWellFormed).map DirEntry.name

/-- Result of one pass of the retry loop over a directory listing: which
entry files were opened and which were removed, in listing order. -/
structure PassResult where
  opened : List String
  removed : List String
deriving DecidableEq

/-- One pass of processPendingNATSLoop over a listing. Oracles: conn k
is the result of the k-th per-entry client liveness check (client
non-nil and IsConnected); openOk n is whether opening entry n succeeds;
storeOk n is whether the StoreMessage attempt for entry n succeeds.
Control flow from the source: directories are skipped; names failing the
msg-%d- scan are skipped; a failed liveness check breaks out of the pass
before opening anything further; an entry that fails to open is skipped;
an opened entry is removed exactly when its StoreMessage attempt
succeeds, and left in place otherwise. -/
def processEntries (conn : Nat → Bool) (openOk storeOk : String → Bool) :
    List DirEntry → Nat → PassResult
  | [], _ => ⟨[], []⟩
  | e :: rest, k =>
    if e.isDir = true then processEntries conn openOk storeOk rest k
    else
      match parseMsgName e.name with
      | none => processEntries conn openOk storeOk rest k
      | some _ =>
        if conn k = true then
          if openOk e.name = true then
            { opened := e.name :: (processEntries conn openOk storeOk rest (k + 1)).opened,
              removed :=
                if storeOk e.name = true then
                  e.name :: (processEntries conn openOk storeOk rest (k + 1)).removed
                else (processEntries conn openOk storeOk rest (k + 1)).removed }
          else processEntries conn openOk storeOk rest (k + 1)
        else ⟨[], []⟩

/-- Spool contents after one pass: the pass computes its removals from
the listing and os.Remove deletes exactly those entry files. -/
def removePass (conn : Nat → Bool) (openOk storeOk : String → Bool) (sp : List DirEntry) :
    List DirEntry :=
  sp.filter (fun e => !((processEntries conn openOk storeOk sp 0).removed.contains e.name))

/-- State of processPendingNATSLoop after n sleep intervals: whether the
goroutine is still running, and the spool contents. shutdownAt is the
interval at which the process shutdown signal is raised; the loop body
contains no receive on any stop channel and no ctx.Done check, so no
branch of this function consults shutdownAt and the running flag can
never become false. -/
def natsLoopRun (shutdownAt : Nat) (conn : Nat → Bool) (openOk storeOk : String → Bool)
    (sp : List DirEntry) : Nat → Bool × List DirEntry
  | 0 => (true, sp)
  | n + 1 =>
    if (natsLoopRun shutdownAt conn openOk storeOk sp n).1 = true then
      (true, removePass conn openOk storeOk (natsLoopRun shutdownAt conn openOk storeOk sp n).2)
    else natsLoopRun shutdownAt conn openOk storeOk sp n

/-- Relative path of the spool directory, from the pendingNATSDir
constant. -/
def pendingNATSDir : String := "store/tmp/nats-pending"

/-- What the package-level init function does. -/
structure PkgInit where
  spoolDir : String
  spoolDirCreated : Bool
  retryLoopStarted : Bool
deriving DecidableEq

/-- The package init function: MkdirAll on the pending directory and the
go statement starting processPendingNATSLoop. It runs when the package
is loaded, takes no input and reads no configuration, so its effect is
the same constant for every configuration state. -/
def packageInit (cfg : Option NATSConfig) : PkgInit :=
  match cfg with
  | _ => ⟨pendingNATSDir, true, true⟩

/-- The select cases of the login-cleanup worker loop: a pending stop
request on loginAttemptCleanerStop, a ticker tick, or context
cancellation. -/
inductive CleanerEvent where
  | stopReq
  | tick
  | ctxDone
deriving DecidableEq

/-- How the cleanup worker goroutine ended. -/
inductive WorkerExit where
  | panicExit
  | stopExit
  | ctxExit
deriving DecidableEq

/-- State of the cleanup worker goroutine: whether its loop is still
running, how it exited if it did, and how many loop iterations
(LoginAttemptCleanup run plus select) have completed. -/
structure CleanerState where
  running : Bool
  exit : Option WorkerExit
  iter : Nat
deriving DecidableEq

/-- One scheduling step of the cleanup worker. Each iteration of its for
loop runs LoginAttemptCleanup and then selects on the stop channel, the
ticker and ctx.Done. p k tells whether the body panics during iteration
k; the recover guard installed by the deferred function sits outside the
for loop at the top of the goroutine, so a panic ends the goroutine
after being recovered. evs k is the select case that fires at iteration
k: a stop request is acknowledged and the loop returns, context
cancellation returns without acknowledgment, a tick continues the
loop. -/
def cleanerStep (p : Nat → Bool) (evs : Nat → CleanerEvent) (s : CleanerState) : CleanerState :=
  if s.running = true then
    if p s.iter = true then ⟨false, some WorkerExit.panicExit, s.iter⟩
    else
      match evs s.iter with
      | CleanerEvent.stopReq => ⟨false, some WorkerExit.stopExit, s.iter + 1⟩
      | CleanerEvent.ctxDone => ⟨false, some WorkerExit.ctxExit, s.iter + 1⟩
      | CleanerEvent.tick => ⟨true, none, s.iter + 1⟩
  else s

/-- Cleanup worker state after n scheduling steps. -/
def cleanerRun (p : Nat → Bool) (evs : Nat → CleanerEvent) : Nat → CleanerState
  | 0 => ⟨true, none, 0⟩
  | n + 1 => cleanerStep p evs (cleanerRun p evs n)

/-- What the deferred recover block of the cleanup goroutine does with a
caught panic value. -/
structure PanicHandler where
  caught : Bool
  logged : Bool
  stackPrinted : Bool
  metricsCounted : Bool
  rethrown : Bool
deriving DecidableEq

/-- The deferred recover block from the cleanup goroutine: the panic is
recovered, logged as an error, the stack is printed, the store panic
metric is incremented, and nothing is rethrown, so the process
survives. -/
def cleanerPanicHandler : PanicHandler :=
  ⟨true, true, true, true, false⟩

/-- The three long-running background workers of the store package. -/
inductive Worker where
  | writer
  | cleaner
  | retryLoop
deriving DecidableEq

/-- The workers Close performs the stop-and-acknowledge rendezvous with,
in order: it sends a fresh channel on writeLoginAttemptStop and waits,
then on loginAttemptCleanerStop and waits, then closes the NATS
connection and the database. No signal is sent to and no wait is
performed on the retry-loop goroutine. -/
def closeRendezvous : List Worker := [Worker.writer, Worker.cleaner]

/-- Observable outcome of store Init. -/
structure InitResult where
  err : Option String
  attemptedRemovals : List String
  failedRemovalsLogged : List String
  writerStarted : Bool
  cleanerStarted : Bool
  natsErrLogged : Bool
deriving DecidableEq

/-- Init: fails when already initialized; opens auth.db (openOk oracle);
lists pending AccountRemove records (listRes oracle, none meaning the
list query failed, which aborts Init); attempts removeAccount for every
listed record in order, logging each failure (removeOk oracle) without
stopping; starts the login-attempt writer and the cleanup worker; calls
InitNATS and, when it errors (natsErr oracle), logs the error and still
returns nil. -/
def initStore (alreadyInit : Bool) (openOk : Bool) (listRes : Option (List String))
    (removeOk : String → Bool) (natsErr : Option String) : InitResult :=
  if alreadyInit = true then ⟨some "already initialized", [], [], false, false, false⟩
  else if openOk = false then ⟨some "open failed", [], [], false, false, false⟩
  else
    match listRes with
    | none => ⟨some "listing scheduled account removals", [], [], false, false, false⟩
    | some accounts =>
      ⟨none, accounts, accounts.filter (fun a => !removeOk a), true, true, natsErr.isSome⟩

/-- Example configuration used by concrete witnesses. -/
def cfgEx : NATSConfig :=
  ⟨"nats://h:4222", "mox-emails", "", "", "", "", 0, 0, false⟩

/-- Example connected client used by concrete witnesses. -/
def clientEx : ClientState := ⟨cfgEx, false, true⟩

/-- Example configuration with every credential field populated. -/
def cfgAllSet : NATSConfig :=
  ⟨"nats://h:4222", "mox-emails", "user", "pw", "tok", "credfile", 0, 0, false⟩

/-- Example spool listing: two well-formed entries, a name that fails
the scan, and a subdirectory. -/
def esEx : List DirEntry :=
  [⟨"msg-7-100-3", false⟩, ⟨"noise", false⟩, ⟨"msg-8-100-4", false⟩,
   ⟨"msg-bad", false⟩, ⟨"sub", true⟩]

/-- Example store-outcome oracle: only the first entry stores
successfully. -/
def storeOkEx : String → Bool := fun n => n == "msg-7-100-3"

/-- A pass whose every liveness check fails opens nothing and removes
nothing: directories and malformed names are skipped, and the first
well-formed entry hits the failed check and breaks out of the pass. -/
theorem processEntries_disconn (conn : Nat → Bool) (openOk storeOk : String → Bool)
    (h : ∀ j, conn j = false) :
    ∀ (es : List DirEntry) (k : Nat), processEntries conn openOk storeOk es k = ⟨[], []⟩ := by
  intro es
  induction es with
  | nil => intro k; rfl
  | cons e rest ih =>
    intro k
    by_cases hd : e.isDir = true
    · simp [processEntries, hd, ih k]
    · cases hp : parseMsgName e.name with
      | none => simp [processEntries, hd, hp, ih k]
      | some v => simp [processEntries, hd, hp, h k]

/-- A pass whose every liveness check succeeds opens exactly the
well-formed entries that open successfully and removes exactly those of
them whose store attempt succeeds, in listing order. -/
theorem processEntries_conn (conn : Nat → Bool) (openOk storeOk : String → Bool)
    (h : ∀ j, conn j = true) :
    ∀ (es : List DirEntry) (k : Nat),
      processEntries conn openOk storeOk es k =
        ⟨(wellFormedNames es).filter (fun n => openOk n),
         (wellFormedNames es).filter (fun n => openOk n && storeOk n)⟩ := by
  intro es
  induction es with
  | nil => intro k; rfl
  | cons e rest ih =>
    intro k
    by_cases hd : e.isDir = true
    · have hw : entryWellFormed e = false := by simp [entryWellFormed, hd]
      simp [processEntries, hd, ih k, wellFormedNames, List.filter_cons, hw]
    · cases hp : parseMsgName e.name with
      | none =>
        have hw : entryWellFormed e = false := by simp [entryWellFormed, hd, hp]
        simp [processEntries, hd, hp, ih k, wellFormedNames, List.filter_cons, hw]
      | some v =>
        have hw : entryWellFormed e = true := by simp [entryWellFormed, hd, hp]
        by_cases ho : openOk e.name = true
        · by_cases hs : storeOk e.name = true
          · simp [processEntries, hd, hp, h k, ho, hs, ih (k + 1), wellFormedNames,
              List.filter_cons, hw]
          · simp [processEntries, hd, hp, h k, ho, hs, ih (k + 1), wellFormedNames,
              List.filter_cons, hw]
        · simp [processEntries, hd, hp, h k, ho, ih (k + 1), wellFormedNames,
            List.filter_cons, hw]

/-- The retry-loop goroutine is still running after any number of sleep
intervals: its body has no exit path. -/
theorem natsLoopRun_fst (shutdownAt : Nat) (conn : Nat → Bool) (openOk storeOk : String → Bool)
    (sp : List DirEntry) : ∀ n, (natsLoopRun shutdownAt conn openOk storeOk sp n).1 = true := by
  intro n
  induction n with
  | zero => rfl
  | succ m ih => simp [natsLoopRun, ih]

/-- A pass with a dead client leaves the spool directory unchanged. -/
theorem removePass_disconn (conn : Nat → Bool) (openOk storeOk : String → Bool)
    (h : ∀ j, conn j = false) (sp : List DirEntry) :
    removePass conn openOk storeOk sp = sp := by
  unfold removePass
  rw [processEntries_disconn conn openOk storeOk h sp 0]
  simp [List.contains]

/-- With a dead client the retry loop keeps running and never removes
an entry, for any number of intervals. -/
theorem natsLoopRun_disconn (shutdownAt : Nat) (openOk storeOk : String → Bool)
    (sp : List DirEntry) :
    ∀ n, natsLoopRun shutdownAt (fun _ => false) openOk storeOk sp n = (true, sp) := by
  intro n
  induction n with
  | zero => rfl
  | succ m ih =>
    simp [natsLoopRun, ih, removePass_disconn (fun _ => false) openOk storeOk (fun j => rfl) sp]

/-- Once the cleanup worker has exited, every later state is the same
exited state. -/
theorem cleanerRun_stopped_fixed (p : Nat → Bool) (evs : Nat → CleanerEvent) (n : Nat)
    (h : (cleanerRun p evs n).running = false) :
    ∀ m, n ≤ m → cleanerRun p evs m = cleanerRun p evs n := by
  intro m hm
  induction hm with
  | refl => rfl
  | step hk ih =>
    show cleanerStep p evs _ = _
    rw [ih]
    simp [cleanerStep, h]

/-- C1: a spool entry is retired only by a confirmed successful
delivery. In a pass of the retry loop whose liveness checks all fail, no
spool entry is opened or removed; in a pass whose liveness checks all
succeed, the well-formed entries are processed in listing order and each
one's file is removed exactly when its store attempt succeeds (entries
failing to open make no store attempt and stay), all others staying in
place. -/
theorem retryPass_retires_only_on_success (es : List DirEntry)
    (conn : Nat → Bool) (openOk storeOk : String → Bool) :
    ((∀ j, conn j = false) → processEntries conn openOk storeOk es 0 = ⟨[], []⟩)
    ∧ ((∀ j, conn j = true) →
        processEntries conn openOk storeOk es 0 =
          ⟨(wellFormedNames es).filter (fun n => openOk n),
           (wellFormedNames es).filter (fun n => openOk n && storeOk n)⟩) :=
  ⟨fun h => processEntries_disconn conn openOk storeOk h es 0,
   fun h => processEntries_conn conn openOk storeOk h es 0⟩

/-- Witness for C1 on a concrete listing: with a live client and all
opens succeeding, the two well-formed entries are opened and exactly the
one whose store succeeds is removed. -/
theorem retryPass_retires_only_on_success_witness :
    processEntries (fun _ => true) (fun _ => true) storeOkEx esEx 0 =
      ⟨["msg-7-100-3", "msg-8-100-4"], ["msg-7-100-3"]⟩ := by
  have h :=
    (retryPass_retires_only_on_success esEx (fun _ => true) (fun _ => true) storeOkEx).2
      (fun j => rfl)
  rw [h]
  decide

/-- C2: when the direct store inside StoreMessageWithQueue fails with
error e and the spool enqueue (seek, exclusive-create, copy) succeeds,
the call returns exactly e and the entry is appended to the spool; when
the direct store succeeds the call returns nil and the spool is
untouched. -/
theorem storeWithQueue_returns_original_error (c : ClientState) (e : GoErr)
    (seekMsgOk : Bool) (putRes : Option String) (id : Int) (ns salt : Nat)
    (data : List Nat) (spool : List (String × List Nat))
    (hdirect : storeMessage (some c) seekMsgOk putRes = some e)
    (hfresh : (spool.lookup (queueEntryName id ns salt)).isSome = false) :
    storeMessageWithQueue (some c) seekMsgOk putRes id ns salt true none data spool
      = (some e, spool ++ [(queueEntryName id ns salt, data)])
    ∧ storeMessageWithQueue (some c) true none id ns salt true none data spool
      = (none, spool) := by
  constructor
  · simp [storeMessageWithQueue, hdirect, hfresh]
  · rfl

/-- Witness for C2: a concrete Put failure with a fresh queue name ends
with the wrapped Put error returned and the entry spooled. -/
theorem storeWithQueue_returns_original_error_witness :
    storeMessageWithQueue (some clientEx) true (some "timeout") 7 100 3 true none [1, 2] []
      = (some (GoErr.putFail "timeout"), [(queueEntryName 7 100 3, [1, 2])]) :=
  (storeWithQueue_returns_original_error clientEx (GoErr.putFail "timeout") true
    (some "timeout") 7 100 3 [1, 2] [] rfl rfl).1

set_option maxRecDepth 8000 in
/-- C3 counterexample: one hundred intervals after the shutdown signal
was raised at interval zero, the retry-loop goroutine is still running,
and the retry loop is not among the workers Close performs the
stop-and-acknowledge rendezvous with; the claim that every background
loop observes shutdown and that Close waits for all three is false. -/
theorem retry_loop_never_stops_cx :
    (natsLoopRun 0 (fun _ => true) (fun _ => true) (fun _ => true) [] 100).1 = true
    ∧ Worker.retryLoop ∉ closeRendezvous := by
  constructor
  · decide
  · decide

/-- C3 amended: the login-cleanup worker observes a pending stop request
or context cancellation at its next suspension point and terminates
within that one scheduling step; Close performs its rendezvous with the
writer and the cleaner; but the archival retry loop consults no shutdown
signal and is still running after every number of intervals, and Close
does not wait for it. -/
theorem shutdown_observation (p : Nat → Bool) (evs : Nat → CleanerEvent) (n : Nat)
    (hrun : (cleanerRun p evs n).running = true)
    (hnp : p (cleanerRun p evs n).iter = false)
    (hev : evs (cleanerRun p evs n).iter = CleanerEvent.stopReq
           ∨ evs (cleanerRun p evs n).iter = CleanerEvent.ctxDone) :
    (cleanerRun p evs (n + 1)).running = false
    ∧ closeRendezvous = [Worker.writer, Worker.cleaner]
    ∧ ∀ (shutdownAt : Nat) (conn : Nat → Bool) (openOk storeOk : String → Bool)
        (sp : List DirEntry) (m : Nat),
        (natsLoopRun shutdownAt conn openOk storeOk sp m).1 = true := by
  refine ⟨?_, rfl, fun sAt conn oOk stOk sp m => natsLoopRun_fst sAt conn oOk stOk sp m⟩
  show (cleanerStep p evs (cleanerRun p evs n)).running = false
  rcases hev with h | h <;> simp [cleanerStep, hrun, hnp, h]

/-- Witness for C3 amended: with context cancellation firing at the
first suspension point, the cleanup worker has stopped one step later. -/
theorem shutdown_observation_witness :
    (cleanerRun (fun _ => false) (fun _ => CleanerEvent.ctxDone) 1).running = false :=
  (shutdown_observation (fun _ => false) (fun _ => CleanerEvent.ctxDone) 0 rfl rfl
    (Or.inr rfl)).1

/-- C4 counterexample: when the cleanup body panics during its first
iteration, three scheduling steps later the worker has exited through
the panic path with zero completed iterations: the loop does not
continue to run or handle subsequent ticks, so the claim that the loop's
future scheduling survives the fault is false. -/
theorem cleaner_panic_cx :
    cleanerRun (fun k => k == 0) (fun _ => CleanerEvent.tick) 3
      = ⟨false, some WorkerExit.panicExit, 0⟩ := by
  decide

/-- C4 amended: a panic inside the cleanup worker's loop body is caught
by the deferred recover, logged with a stack trace, counted in the panic
metric and not rethrown, so the process survives; but the recover guard
sits outside the for loop, so the goroutine exits: from the following
scheduling step on, the worker is permanently in the panic-exit state
and handles no further ticks or stop requests. -/
theorem cleaner_panic_kills_worker (p : Nat → Bool) (evs : Nat → CleanerEvent) (n : Nat)
    (hrun : (cleanerRun p evs n).running = true)
    (hp : p (cleanerRun p evs n).iter = true) :
    cleanerPanicHandler = ⟨true, true, true, true, false⟩
    ∧ ∀ m, n + 1 ≤ m →
        cleanerRun p evs m = ⟨false, some WorkerExit.panicExit, (cleanerRun p evs n).iter⟩ := by
  refine ⟨rfl, ?_⟩
  have hstep : cleanerRun p evs (n + 1)
      = ⟨false, some WorkerExit.panicExit, (cleanerRun p evs n).iter⟩ := by
    show cleanerStep p evs (cleanerRun p evs n) = _
    simp [cleanerStep, hrun, hp]
  intro m hm
  have hfix := cleanerRun_stopped_fixed p evs (n + 1) (by rw [hstep]) m hm
  rw [hfix, hstep]

/-- Witness for C4 amended: a panic at the first iteration leaves the
worker in the panic-exit state two steps later. -/
theorem cleaner_panic_kills_worker_witness :
    cleanerRun (fun _ => true) (fun _ => CleanerEvent.tick) 2
      = ⟨false, some WorkerExit.panicExit, 0⟩ :=
  (cleaner_panic_kills_worker (fun _ => true) (fun _ => CleanerEvent.tick) 0 rfl rfl).2 2
    (by decide)

/-- C5 counterexample: with the generated entry name already present in
the spool, StoreMessageWithQueue returns the create-queue-file error and
performs no retry, so the claim that a collision is a retried condition
rather than a returned failure is false; the existing entry keeps its
contents. -/
theorem spool_collision_cx :
    storeMessageWithQueue (some clientEx) true (some "down") 1 5 7 true none [9]
        [(queueEntryName 1 5 7, [1, 2])]
      = (some GoErr.createErr, [(queueEntryName 1 5 7, [1, 2])]) := by
  decide

/-- C5 amended: spool enqueue opens the entry with the exclusive-create
flag, so a name collision never overwrites or truncates the existing
file; the collision is returned to the caller as the create error of the
enqueue, and no retry with a fresh salt occurs. -/
theorem spool_collision_returns_error (c : ClientState) (e : GoErr)
    (seekMsgOk : Bool) (putRes : Option String) (id : Int) (ns salt : Nat)
    (copyFail : Option Nat) (data : List Nat) (spool : List (String × List Nat))
    (hdirect : storeMessage (some c) seekMsgOk putRes = some e)
    (hclash : (spool.lookup (queueEntryName id ns salt)).isSome = true) :
    storeMessageWithQueue (some c) seekMsgOk putRes id ns salt true copyFail data spool
      = (some GoErr.createErr, spool) := by
  simp [storeMessageWithQueue, hdirect, hclash]

/-- Witness for C5 amended: a concrete collision returns the create
error and leaves the spool unchanged. -/
theorem spool_collision_returns_error_witness :
    storeMessageWithQueue (some clientEx) true (some "down") 2 6 8 true none [3]
        [(queueEntryName 2 6 8, [7])]
      = (some GoErr.createErr, [(queueEntryName 2 6 8, [7])]) :=
  spool_collision_returns_error clientEx (GoErr.putFail "down") true (some "down") 2 6 8 none
    [3] [(queueEntryName 2 6 8, [7])] rfl rfl

/-- C6: with a nil client every operation is a safe no-op for every
argument value: StoreMessage, StoreMessageWithQueue and Close return
nil, StoreMessageAsync returns without reading or handing off anything,
Config returns nil, IsConnected returns false, and no spool entry is
written. -/
theorem nil_client_noop (seekMsgOk : Bool) (putRes : Option String) (id : Int) (ns salt : Nat)
    (seekQueueOk : Bool) (copyFail : Option Nat) (data : List Nat)
    (spool : List (String × List Nat)) (seekA readA tmpA writeA : Bool) (c1 c2 : List Nat) :
    storeMessage none seekMsgOk putRes = none
    ∧ storeMessageWithQueue none seekMsgOk putRes id ns salt seekQueueOk copyFail data spool
        = (none, spool)
    ∧ storeMessageAsync none seekA c1 readA tmpA writeA c2 = ⟨none, none, none⟩
    ∧ closeClient none = none
    ∧ clientConfig none = none
    ∧ isConnected none = false :=
  ⟨rfl, rfl, rfl, rfl, rfl, rfl⟩

/-- C7: for a non-nil client and a readable message file,
StoreMessageAsync snapshots the full payload before returning, the bytes
the detached task hands to the store-with-queue path are exactly that
call-time snapshot, later contents of the caller's file are irrelevant
to the whole observable outcome, and the caller observes no outcome of
the detached task. -/
theorem async_snapshot_semantics (c : ClientState) (contents later1 later2 : List Nat)
    (tmpOk writeOk : Bool) :
    (storeMessageAsync (some c) true contents true tmpOk writeOk later1).snapshot
        = some contents
    ∧ (storeMessageAsync (some c) true contents true true true later1).handedToQueue
        = some contents
    ∧ storeMessageAsync (some c) true contents true tmpOk writeOk later1
        = storeMessageAsync (some c) true contents true tmpOk writeOk later2
    ∧ (storeMessageAsync (some c) true contents true tmpOk writeOk later1).callerObserved
        = none :=
  ⟨rfl, rfl, rfl, rfl⟩

/-- C8: with the store not yet initialized, the database opening and the
removal listing succeeding, Init attempts every listed account removal
in listing order, logs exactly the failing ones, and returns nil no
matter which removals fail and no matter whether archival-client
initialization fails; a failing InitNATS is logged and both workers are
still started. -/
theorem init_removals_best_effort (accounts : List String) (removeOk : String → Bool)
    (natsErr : Option String) :
    (initStore false true (some accounts) removeOk natsErr).err = none
    ∧ (initStore false true (some accounts) removeOk natsErr).attemptedRemovals = accounts
    ∧ (initStore false true (some accounts) removeOk natsErr).failedRemovalsLogged
        = accounts.filter (fun a => !removeOk a)
    ∧ (initStore false true (some accounts) removeOk natsErr).natsErrLogged = natsErr.isSome
    ∧ (initStore false true (some accounts) removeOk natsErr).writerStarted = true
    ∧ (initStore false true (some accounts) removeOk natsErr).cleanerStarted = true :=
  ⟨rfl, rfl, rfl, rfl, rfl, rfl⟩

/-- C9: client construction applies at most one authentication option,
selected by priority: the credentials file when set, else the token when
set, else username and password when the username is set, else none,
even when several credential fields are populated at once. -/
theorem auth_method_priority (cfg : NATSConfig) :
    (authOpts cfg).length ≤ 1
    ∧ (cfg.credentialsFile ≠ "" → authOpts cfg = [AuthOpt.credsFile cfg.credentialsFile])
    ∧ (cfg.credentialsFile = "" → cfg.token ≠ "" → authOpts cfg = [AuthOpt.token cfg.token])
    ∧ (cfg.credentialsFile = "" → cfg.token = "" → cfg.username ≠ "" →
        authOpts cfg = [AuthOpt.userInfo cfg.username cfg.password])
    ∧ (cfg.credentialsFile = "" → cfg.token = "" → cfg.username = "" → authOpts cfg = []) := by
  unfold authOpts
  by_cases h1 : cfg.credentialsFile = "" <;> by_cases h2 : cfg.token = "" <;>
    by_cases h3 : cfg.username = "" <;> simp [h1, h2, h3]

/-- Witness for C9: with all three credential fields populated, only the
credentials file is applied. -/
theorem auth_method_priority_witness :
    authOpts cfgAllSet = [AuthOpt.credsFile "credfile"] :=
  (auth_method_priority cfgAllSet).2.1 (by decide)

/-- C10: the package init creates the spool directory at its fixed
relative path and starts the retry-loop goroutine for every
configuration state, configured or not; and with a dead client every
pass opens and removes nothing, so after any number of intervals the
loop is still running and the spool is unchanged. -/
theorem pkg_init_unconditional (cfg : Option NATSConfig) (es sp : List DirEntry)
    (openOk storeOk : String → Bool) (shutdownAt n : Nat) :
    packageInit cfg = ⟨"store/tmp/nats-pending", true, true⟩
    ∧ processEntries (fun _ => false) openOk storeOk es 0 = ⟨[], []⟩
    ∧ natsLoopRun shutdownAt (fun _ => false) openOk storeOk sp n = (true, sp) :=
  ⟨rfl, processEntries_disconn (fun _ => false) openOk storeOk (fun _ => rfl) es 0,
   natsLoopRun_disconn shutdownAt openOk storeOk sp n⟩
